import Mathlib

/-!
Verification development for the rubbish-cli deferred-deletion tool.

The Go sources are shallowly embedded: pure helpers become Lean functions,
the BadgerDB-backed journal becomes an association list behind an
`Option`, filesystem syscalls are modelled by an explicit finite map from
absolute path strings to stat records, and syscall failures that depend on
conditions outside the model (rename and removal errors) are supplied as
oracle parameters.  Machine integers (`int`, `int64`) are modelled as `Int`;
`float64` arithmetic in the wipeable predicate is modelled by exact
rationals.  Errors are `Except String`, with messages following the
`fmt.Errorf` format strings of the source.
-/

/-! ## Path helpers (Go `path` / `path/filepath`, restricted to cleaned paths)

The Go sources only ever pass cleaned paths without trailing slashes to
`path.Dir`, `path.Base`, `path.Join` and `filepath.Abs`, so the embedding
implements exactly that fragment of their semantics.
-/

/-- Go `strings.HasPrefix s pre` (byte-wise prefix test, modelled on chars). -/
def hasPrefixStr (s pre : String) : Bool :=
  pre.data.isPrefixOf s.data

/-- Index of the last slash of a character list, if any. -/
def lastSlashIdx (cs : List Char) : Option Nat :=
  match cs.reverse.findIdx? (fun c => c == '/') with
  | none => none
  | some k => some (cs.length - 1 - k)

/-- Go `path.Dir` / `filepath.Dir` on cleaned paths without trailing slash. -/
def filepathDir (p : String) : String :=
  match lastSlashIdx p.data with
  | none => "."
  | some 0 => "/"
  | some (i + 1) => String.mk (p.data.take (i + 1))

/-- Go `path.Base` / `filepath.Base` on cleaned non-root paths. -/
def filepathBase (p : String) : String :=
  if p.data.isEmpty then "." else
  match lastSlashIdx p.data with
  | none => p
  | some i => String.mk (p.data.drop (i + 1))

/-- Go `path.Join a b` on cleaned components. -/
def pathJoin (a b : String) : String :=
  if a.data.isEmpty then b
  else if b.data.isEmpty then a
  else a ++ "/" ++ b

/-- Go `filepath.Abs` relative to the working directory `cwd` (cleaned inputs). -/
def absPath (cwd p : String) : String :=
  match p.data with
  | '/' :: _ => p
  | _ => pathJoin cwd p

/-! ## Filesystem model

A flat map from absolute path to stat data.  Symbolic-link traversal is not
modelled (each path maps directly to its stat record); `os.Lstat` and
`os.Stat` therefore both look the path up in the map, which matches the Go
behaviour on link-free trees, and the `isSymlink` flag carries the
`os.ModeSymlink` bit that `os.Lstat` reports.
-/

/-- Stat data of one filesystem object: owner, group, permission bits
(low nine bits of `os.FileMode`), and the type flags. -/
structure FileStat where
  uid : Nat
  gid : Nat
  mode : Nat
  isDir : Bool
  isSymlink : Bool
deriving Repr, DecidableEq

/-- The filesystem: a finite map from absolute path to stat data. -/
abbrev FS := List (String × FileStat)

/-- Stat lookup (`os.Stat` / `os.Lstat` in the flat model). -/
def fsLookup (fs : FS) (p : String) : Option FileStat :=
  (fs.find? (fun e => e.1 == p)).map (fun e => e.2)

/-- Effect of a successful `os.Rename src dst` on the model. -/
def fsRename (fs : FS) (src dst : String) : FS :=
  match fsLookup fs src with
  | none => fs
  | some st => (dst, st) :: fs.filter (fun e => e.1 != src && e.1 != dst)

/-- Effect of a successful `os.RemoveAll p` on the model (removes the
object and its subtree). -/
def fsRemoveAll (fs : FS) (p : String) : FS :=
  fs.filter (fun e => e.1 != p && !(hasPrefixStr e.1 (p ++ "/")))

/-! ## MetaData (journal/metadata.go, src/unnamed/part_009) -/

/-- Record describing one trashed object. -/
structure MetaData where
  Item : String
  Origin : String
  «Type» : Nat
  WipeoutTime : Int
  TossedTime : Int
deriving Repr, DecidableEq

/-- `TypeFile = iota + 1`. -/
def TypeFile : Nat := 1
/-- `TypeDirectory`. -/
def TypeDirectory : Nat := 2
/-- `TypeSymlink`. -/
def TypeSymlink : Nat := 3
/-- `TypeOther`. -/
def TypeOther : Nat := 4

/-- `getType` (src/unnamed/part_009:67): classifies the object at `path`
via `os.Lstat` without following symlinks; `TypeOther` when the stat
fails.  Relative paths resolve against the process working directory. -/
def getType (fs : FS) (cwd : String) (path : String) : Nat :=
  match fsLookup fs (absPath cwd path) with
  | none => TypeOther
  | some info =>
    if info.isSymlink then TypeSymlink
    else if info.isDir then TypeDirectory
    else TypeFile

/-- `GenerateMetadata` (src/unnamed/part_009:99).  `time.Now().Unix()` is
the parameter `now`.  Note the source quirk: `Type` is computed from the
`item` parameter, not from `path`. -/
def GenerateMetadata (fs : FS) (cwd : String) (now : Int)
    (item path : String) (wipeoutTime : Int) : MetaData :=
  { Item := item
    Origin := path
    «Type» := getType fs cwd item
    WipeoutTime := wipeoutTime
    TossedTime := now }

/-- `TossElapsed` (src/unnamed/part_009:109) in nanoseconds: Go
`time.Since(time.Unix(TossedTime, 0))` where `nowNs` is the current time
in nanoseconds since the epoch. -/
def TossElapsedNs (nowNs : Int) (m : MetaData) : Int :=
  nowNs - m.TossedTime * 1000000000

/-- Go `time.Duration.Hours()`, modelled exactly over the rationals. -/
def durationHours (ns : Int) : ℚ :=
  (ns : ℚ) / 3600000000000

/-- `IsWipeable` (src/unnamed/part_009:114):
`TossElapsed().Hours()/24.0 >= float64(WipeoutTime)`, with the float64
arithmetic modelled by exact rationals. -/
def IsWipeable (nowNs : Int) (m : MetaData) : Bool :=
  decide ((m.WipeoutTime : ℚ) ≤ durationHours (TossElapsedNs nowNs m) / 24)

/-! ## Journal (src/unnamed/part_007)

BadgerDB is modelled by an association list with unique keys; `db = none`
means `Load` was never run.  Single-key transactions on an open store
always succeed in the model (marshalling a `MetaData` cannot fail).
Iteration order of the model is list order; no claim depends on the
key-sorted order Badger provides.
-/

/-- The backing store contents. -/
abbrev DB := List (String × MetaData)

/-- Lookup of one key. -/
def dbLookup : DB → String → Option MetaData
  | [], _ => none
  | e :: t, k => if e.1 == k then some e.2 else dbLookup t k

/-- Badger `txn.Delete`: removes the key; deleting an absent key succeeds. -/
def dbErase : DB → String → DB
  | [], _ => []
  | e :: t, k => if e.1 == k then dbErase t k else e :: dbErase t k

/-- Badger `txn.Set`: upsert of one key. -/
def dbSet (d : DB) (k : String) (v : MetaData) : DB :=
  (k, v) :: dbErase d k

/-- All stored records. -/
def dbValues (d : DB) : List MetaData :=
  d.map (fun e => e.2)

/-- The journal handle: configured path plus the opened store, if any. -/
structure Journal where
  Path : String
  db : Option DB
deriving Repr, DecidableEq

/-- Record lookup through the handle (`none` when uninitialized or absent). -/
def journalLookup (j : Journal) (k : String) : Option MetaData :=
  match j.db with
  | none => none
  | some d => dbLookup d k

/-- `register` (src/unnamed/part_007:96): transactional write of one record. -/
def Journal.register (j : Journal) (m : MetaData) :
    Except String Unit × Journal :=
  match j.db with
  | none => (.error "journal database is not initialized", j)
  | some d => (.ok (), { j with db := some (dbSet d m.Item m) })

/-- `Add` (src/unnamed/part_007:74): resolves the origin to an absolute
path, generates metadata and registers it.  `filepath.Abs` is total in the
model and `GenerateMetadata` never returns nil, so those error branches of
the source are dead here. -/
def Journal.Add (j : Journal) (fs : FS) (cwd : String) (now : Int)
    (item file : String) (wipeoutTime : Int) :
    Except String Unit × Journal :=
  let path := absPath cwd file
  let metadata := GenerateMetadata fs cwd now item path wipeoutTime
  j.register metadata

/-- Modelled from the spec: `AddFileByName` is called by `Toss`
(src/tosser/tosser.go:442) and `TossFile` (src/unnamed/part_004) but is
not defined under src/.  Per spec section 4.1 `Add` and section 4.4 step 3
it writes exactly one journal record for the given key with
`Origin = absolute(path)`, `Type` derived from the current filesystem
state and `TossedTime = now`, i.e. the `Add` contract. -/
def Journal.AddFileByName (j : Journal) (fs : FS) (cwd : String) (now : Int)
    (item file : String) (wipeoutTime : Int) :
    Except String Unit × Journal :=
  j.Add fs cwd now item file wipeoutTime

/-- Modelled from the spec: `AddRecord` is called by `executeWipe`
(src/README.md:173, wipe package) but is not defined under src/.  Per spec
sections 4.6 step 4 and 9 it re-inserts the given record unchanged
(replaying the exact original record), i.e. it registers the record as-is. -/
def Journal.AddRecord (j : Journal) (m : MetaData) :
    Except String Unit × Journal :=
  j.register m

/-- `Get` (src/unnamed/part_007:121).  The Badger not-found error is
rendered with its message text. -/
def Journal.Get (j : Journal) (item : String) : Except String MetaData :=
  match j.db with
  | none => .error "journal database is not initialized"
  | some d =>
    match dbLookup d item with
    | none => .error "error getting metadata: Key not found"
    | some m => .ok m

/-- `List` (src/unnamed/part_007:152); named `ListRecords` here to avoid
clashing with the builtin `List`. -/
def Journal.ListRecords (j : Journal) : Except String (List MetaData) :=
  match j.db with
  | none => .error "journal database is not initialized"
  | some d => .ok (dbValues d)

/-- `GetAllItems` (src/unnamed/part_007:308): same contract as `List`. -/
def Journal.GetAllItems (j : Journal) : Except String (List MetaData) :=
  match j.db with
  | none => .error "journal database is not initialized"
  | some d => .ok (dbValues d)

/-- `Delete` (src/unnamed/part_007:191): idempotent removal of one key. -/
def Journal.Delete (j : Journal) (item : String) :
    Except String Unit × Journal :=
  match j.db with
  | none => (.error "journal database is not initialized", j)
  | some d => (.ok (), { j with db := some (dbErase d item) })

/-- `Clear` (src/unnamed/part_007:209): removes every record. -/
def Journal.Clear (j : Journal) : Except String Unit × Journal :=
  match j.db with
  | none => (.error "journal database is not initialized", j)
  | some _ => (.ok (), { j with db := some [] })

/-- `Count` (src/unnamed/part_007:234). -/
def Journal.Count (j : Journal) : Except String Nat :=
  match j.db with
  | none => .error "journal database is not initialized"
  | some d => .ok d.length

/-- Size of one stored value; stands for `item.ValueSize()` of the JSON
encoding, whose exact byte count no claim depends on. -/
def metaValueSize (m : MetaData) : Int :=
  (m.Item.length : Int) + (m.Origin.length : Int)

/-- `GetSize` (src/unnamed/part_007:262). -/
def Journal.GetSize (j : Journal) : Except String Int :=
  match j.db with
  | none => .error "journal database is not initialized"
  | some d => .ok ((dbValues d).map metaValueSize).sum

/-- `GetContainerItems` (src/unnamed/part_007:285): keeps the records
whose `Origin` has `container` as a string prefix (`strings.HasPrefix`);
an empty result is returned as the nil slice, indistinguishable from the
empty list. -/
def Journal.GetContainerItems (j : Journal) (container : String) :
    Except String (List MetaData) :=
  match j.db with
  | none => .error "journal database is not initialized"
  | some _ =>
    match j.GetAllItems with
    | .error e => .error ("error retrieving all items: " ++ e)
    | .ok metadataList =>
      let containerItems :=
        metadataList.filter (fun m => hasPrefixStr m.Origin container)
      .ok (if containerItems.isEmpty then [] else containerItems)

/-! ## Tosser (src/tosser/tosser.go)

The random six-character `NameSufix` and the outcome of `os.Rename` depend
on state outside the model, so the suffix and the rename error (if any)
are parameters of `Toss`.  `os.Getuid`, `os.Getgid` and `os.Getgroups`
are carried by a `Principal`; `os.Getgroups` never fails in the model.
-/

/-- The invoking principal: uid, gid and supplementary groups. -/
structure Principal where
  uid : Nat
  gid : Nat
  groups : List Nat
deriving Repr, DecidableEq

/-- The configuration contract consumed by the engines.  `SwipeTime` is the
retention field name of the earlier revisions (files.go era), `WipeoutTime`
the later one; both are days. -/
structure Config where
  ContainerPath : String
  WorkingDir : String
  WipeoutTime : Int
  SwipeTime : Int
deriving Repr, DecidableEq

/-- `validateParentDirAccess` (src/tosser/tosser.go:207): the containing
directory must be writable by the principal; owner, group and other write
bits are tried in turn (an owner without the owner-write bit still falls
through to the group and other checks here). -/
def validateParentDirAccess (p : Principal) (fs : FS) (cwd : String)
    (item : String) : Except String Unit :=
  let parentDir := filepathDir item
  match fsLookup fs (absPath cwd parentDir) with
  | none => .error ("cannot access parent directory of " ++ item)
  | some st =>
    if p.uid == st.uid && (st.mode &&& 0o200) != 0 then .ok ()
    else if (p.gid == st.gid || p.groups.contains st.gid)
        && (st.mode &&& 0o020) != 0 then .ok ()
    else if (st.mode &&& 0o002) != 0 then .ok ()
    else .error ("no write permission for parent directory of " ++ item)

/-- `validateAccess` (src/tosser/tosser.go:253): root always passes;
otherwise the owner needs the owner-write bit, else a group member (primary
or supplementary) needs the group-write bit, else the other-write bit is
required; on success the parent directory is checked as well. -/
def validateAccess (p : Principal) (fs : FS) (cwd : String)
    (item : String) : Except String Unit :=
  if p.uid == 0 then .ok ()
  else
    match fsLookup fs (absPath cwd item) with
    | none => .error ("cannot access item " ++ item)
    | some st =>
      if p.uid == st.uid then
        if (st.mode &&& 0o200) != 0 then validateParentDirAccess p fs cwd item
        else .error ("no write permission for item " ++ item)
      else if st.gid == p.gid || p.groups.contains st.gid then
        if (st.mode &&& 0o020) != 0 then validateParentDirAccess p fs cwd item
        else .error "group does not have write permission"
      else if (st.mode &&& 0o002) != 0 then
        validateParentDirAccess p fs cwd item
      else .error "user is not owner and not in group"

/-- `Toss` (src/tosser/tosser.go:439): computes the suffixed destination,
writes the journal record synchronously, then renames; when the rename
fails it deletes the just-written record and reports the rename error, or
a combined error if the compensating delete itself fails.  `renameErr` is
the oracle for the `os.Rename` outcome. -/
def Toss (item : String) (cfg : Config) (suffix : String) (fs : FS)
    (cwd : String) (now : Int) (renameErr : Option String) (j : Journal) :
    Except String Unit × Journal × FS :=
  let destination := pathJoin cfg.ContainerPath
    (filepathBase (item ++ "_" ++ suffix))
  match j.AddFileByName fs cwd now (filepathBase destination) item
      cfg.WipeoutTime with
  | (.error e, j1) =>
    (.error ("error adding item to rubbish journal: " ++ e), j1, fs)
  | (.ok _, j1) =>
    match renameErr with
    | some cause =>
      match j1.Delete (filepathBase destination) with
      | (.error ej, j2) =>
        (.error ("error deleting journal entry for " ++ item
          ++ " due to unable to move to rubbish bin: " ++ ej), j2, fs)
      | (.ok _, j2) =>
        (.error ("error moving item to rubbish bin: " ++ cause), j2, fs)
    | none => (.ok (), j1, fsRename fs (absPath cwd item) destination)

/-- `Toss` of the revision with the permission gate
(src/tosser/tosser.go:314, also src/unnamed/part_002:185): runs
`validateAccess` first and aborts on its error; the remainder of the body
is textually identical to the gateless revision embedded as `Toss`. -/
def TossValidated (item : String) (cfg : Config) (suffix : String)
    (fs : FS) (cwd : String) (p : Principal) (now : Int)
    (renameErr : Option String) (j : Journal) :
    Except String Unit × Journal × FS :=
  match validateAccess p fs cwd item with
  | .error e => (.error e, j, fs)
  | .ok _ => Toss item cfg suffix fs cwd now renameErr j

/-- A journal write spawned with `go` and not yet applied: its completion
is not ordered before anything the spawning function does afterwards. -/
structure PendingAdd where
  item : String
  file : String
  swipeTime : Int
deriving Repr, DecidableEq

/-- Result of `TossFile`: outcome, journal and filesystem as observed when
the call returns, plus the journal writes still pending in spawned
goroutines at that point. -/
structure TossFileOut where
  res : Except String Unit
  j : Journal
  fs : FS
  pending : List PendingAdd
deriving Repr

/-- `TossFile` (src/tosser/files.go:12): stats the source, rejects
directories, avoids container collisions with a timestamp suffix
(`nowFmt`), then spawns the journal `Add` in a goroutine (`go func`) and
immediately performs the rename.  The spawned write is recorded in
`pending` and is not applied to the journal before the call returns: the
rename is not ordered after it. -/
def TossFile (file : String) (cfg : Config) (fs : FS) (cwd : String)
    (nowFmt : String) (renameErr : Option String) (j : Journal) :
    TossFileOut :=
  match fsLookup fs (absPath cwd file) with
  | none => ⟨.error ("error getting file info for " ++ file), j, fs, []⟩
  | some info =>
    if info.isDir then
      ⟨.error ("cannot toss a directory using TossFile: " ++ file), j, fs, []⟩
    else
      let basename := filepathBase file
      let destination :=
        match fsLookup fs (pathJoin cfg.ContainerPath basename) with
        | some _ => pathJoin cfg.ContainerPath (basename ++ "_" ++ nowFmt)
        | none => pathJoin cfg.ContainerPath basename
      let pend : List PendingAdd :=
        [⟨filepathBase destination, file, cfg.SwipeTime⟩]
      match renameErr with
      | some cause =>
        match j.Delete (filepathBase destination) with
        | (.error ej, j2) =>
          ⟨.error ("error deleting journal entry for " ++ file ++ ": " ++ ej),
            j2, fs, pend⟩
        | (.ok _, j2) =>
          ⟨.error ("error moving file " ++ file ++ " to trash: " ++ cause),
            j2, fs, pend⟩
      | none => ⟨.ok (), j, fsRename fs (absPath cwd file) destination, pend⟩

/-! ## Wipe engine (wipe package, src/README.md:18-201) -/

/-- Mutable world of a wipe batch: filesystem plus journal. -/
structure WState where
  fs : FS
  j : Journal
deriving Repr, DecidableEq

/-- Oracles for a wipe batch: the auto-acknowledge flag, the stdin answer
per prompted item (`.error` for a `fmt.Scanln` failure), and the
`os.RemoveAll` outcome per path. -/
structure WipeOracles where
  autoAck : Bool
  answer : String → Except String String
  removeErr : String → Option String

/-- `confirmWipe` (src/README.md:78): auto-acknowledge short-circuits,
otherwise the answer must be y or Y. -/
def confirmWipe (o : WipeOracles) (item : String) : Except String Bool :=
  if o.autoAck then .ok true
  else
    match o.answer item with
    | .error e => .error e
    | .ok response => .ok (response == "y" || response == "Y")

/-- `executeWipe` (src/README.md:158): deletes the journal record first,
then removes the container object; when the removal fails it re-adds the
record (discarding any error of that re-add, as the source does) and
reports the removal error. -/
def executeWipe (cfg : Config) (removeErr : String → Option String)
    (st : WState) (record : MetaData) : Except String Unit × WState :=
  let rubbishFile := pathJoin cfg.ContainerPath record.Item
  match st.j.Delete record.Item with
  | (.error e, j1) =>
    (.error ("error deleting record for " ++ record.Item ++ ": " ++ e),
      { st with j := j1 })
  | (.ok _, j1) =>
    match removeErr rubbishFile with
    | some cause =>
      (.error ("error removing rubbish file " ++ rubbishFile ++ ": " ++ cause),
        { st with j := (j1.AddRecord record).2 })
    | none => (.ok (), ⟨fsRemoveAll st.fs rubbishFile, j1⟩)

/-- `wipeSelectedFiles` (src/README.md:131): walks the selected keys; a
key without a matching candidate record makes the function return an error
at once; a declined confirmation skips the item; an `executeWipe` failure
is printed and processing continues. -/
def wipeSelectedFiles (cfg : Config) (o : WipeOracles)
    (records : List MetaData) (files : List String) (st : WState) :
    Except String Unit × WState :=
  match files with
  | [] => (.ok (), st)
  | file :: rest =>
    match records.find? (fun r => r.Item == file) with
    | none => (.error ("file " ++ file ++ " not found in the rubbish"), st)
    | some record =>
      match confirmWipe o record.Item with
      | .error e =>
        (.error ("error confirming wipe for " ++ record.Item ++ ": " ++ e), st)
      | .ok false => wipeSelectedFiles cfg o records rest st
      | .ok true =>
        match executeWipe cfg o.removeErr st record with
        | (.error _, st2) => wipeSelectedFiles cfg o records rest st2
        | (.ok _, st2) => wipeSelectedFiles cfg o records rest st2

/-! ## Restore engine (restorer package, src/README.md:202-304) -/

/-- Outcome of one iteration of the restore loop. -/
inductive RestoreOutcome where
  | notInScope
  | conflict
  | restored
  | failed (msg : String)
deriving Repr, DecidableEq

/-- One iteration of the restore loop of `restorer.Command`
(src/README.md:257-301) for the key `file` over the local-scope records:
skip when the key is not in local scope; compute the target as the
original basename in the working directory; skip with a conflict when the
target exists and `override` is unset; otherwise rename the container
object to the target (oracle `renameErr`) and delete the journal record
on success. -/
def restoreOne (override : Bool) (cfg : Config) (fs : FS) (cwd : String)
    (renameErr : Option String) (localRubbish : List MetaData)
    (file : String) (j : Journal) : RestoreOutcome × Journal × FS :=
  match localRubbish.find? (fun r => r.Item == file) with
  | none => (.notInScope, j, fs)
  | some record =>
    let originalFile := filepathBase record.Origin
    match fsLookup fs (absPath cwd originalFile), override with
    | some _, false => (.conflict, j, fs)
    | _, _ =>
      match renameErr with
      | some cause =>
        (.failed ("error restoring file " ++ file ++ ": " ++ cause), j, fs)
      | none =>
        let fs2 := fsRename fs (pathJoin cfg.ContainerPath record.Item)
          (absPath cwd originalFile)
        match j.Delete record.Item with
        | (.error ej, j2) =>
          (.failed ("error deleting journal record for file " ++ file
            ++ ": " ++ ej), j2, fs2)
        | (.ok _, j2) => (.restored, j2, fs2)

/-! ## Spec-side definitions

These definitions follow the words of the specification (not the source)
and exist only to be compared with the embedded source functions.
-/

/-- Whether an `Except` result is a success. -/
def exceptOk (e : Except String Unit) : Bool :=
  match e with
  | .ok _ => true
  | .error _ => false

/-- Spec reading of object writability (spec 4.2): the owner needs the
owner-write bit, else a group member the group-write bit, else the
other-write bit. -/
def specObjectWritable (p : Principal) (st : FileStat) : Bool :=
  if p.uid == st.uid then (st.mode &&& 0o200) != 0
  else if st.gid == p.gid || p.groups.contains st.gid then
    (st.mode &&& 0o020) != 0
  else (st.mode &&& 0o002) != 0

/-- Spec reading of directory writability (spec 4.2, "the parent directory
must also be writable"): writable through the owner, group or other class. -/
def specDirWritable (p : Principal) (st : FileStat) : Bool :=
  (p.uid == st.uid && (st.mode &&& 0o200) != 0)
  || ((p.gid == st.gid || p.groups.contains st.gid)
      && (st.mode &&& 0o020) != 0)
  || ((st.mode &&& 0o002) != 0)

/-- Spec reading of the whole toss permission gate: root always passes,
otherwise both the object and its parent directory must be statable and
writable. -/
def specTossAllowed (p : Principal) (fs : FS) (cwd : String)
    (item : String) : Bool :=
  p.uid == 0 ||
    (match fsLookup fs (absPath cwd item),
        fsLookup fs (absPath cwd (filepathDir item)) with
     | some st, some pst => specObjectWritable p st && specDirWritable p pst
     | _, _ => false)

/-- Subtree containment of cleaned absolute paths, as the spec uses it:
`q` lies in the subtree rooted at `dir` when it is `dir` itself or extends
it past a slash. -/
def inSubtree (dir q : String) : Bool :=
  q == dir || hasPrefixStr q (dir ++ "/")

/-- Spec reading of local scope (spec 4.1 `FilterPath`): a record is in
scope of `dir` when the parent directory of its `Origin` lies inside the
subtree of `dir`. -/
def specLocalScope (dir : String) (m : MetaData) : Bool :=
  inSubtree dir (filepathDir m.Origin)

/-! ## Helper lemmas about the store model -/

theorem dbLookup_set_self (d : DB) (k : String) (v : MetaData) :
    dbLookup (dbSet d k v) k = some v := by
  simp [dbLookup, dbSet]

theorem dbLookup_erase_self (d : DB) (k : String) :
    dbLookup (dbErase d k) k = none := by
  induction d with
  | nil => rfl
  | cons e t ih =>
    by_cases h : e.1 = k
    · simpa [dbErase, h] using ih
    · simpa [dbErase, dbLookup, h] using ih

theorem dbLookup_erase_ne (d : DB) (k k2 : String) (h : k2 ≠ k) :
    dbLookup (dbErase d k) k2 = dbLookup d k2 := by
  induction d with
  | nil => rfl
  | cons e t ih =>
    by_cases h1 : e.1 = k
    · have h2 : e.1 ≠ k2 := fun hh => h (hh ▸ h1 ▸ rfl)
      simp [dbErase, dbLookup, h1, h2, Ne.symm h, ih]
    · by_cases h2 : e.1 = k2
      · simp [dbErase, dbLookup, h1, h2, h]
      · simp [dbErase, dbLookup, h1, h2, ih]

theorem dbLookup_set_ne (d : DB) (k k2 : String) (v : MetaData)
    (h : k2 ≠ k) :
    dbLookup (dbSet d k v) k2 = dbLookup d k2 := by
  have hk : k ≠ k2 := Ne.symm h
  simp [dbSet, dbLookup, hk, dbLookup_erase_ne d k k2 h]

/-! ## Refinement of the permission gate -/

theorem validateParentDirAccess_ok_eq (p : Principal) (fs : FS)
    (cwd item : String) :
    exceptOk (validateParentDirAccess p fs cwd item) =
      (match fsLookup fs (absPath cwd (filepathDir item)) with
       | none => false
       | some pst => specDirWritable p pst) := by
  unfold validateParentDirAccess specDirWritable exceptOk
  cases h : fsLookup fs (absPath cwd (filepathDir item)) with
  | none => simp [h]
  | some pst =>
    simp only [h]
    split_ifs with h1 h2 h3 <;> simp_all

theorem validateAccess_ok_eq (p : Principal) (fs : FS) (cwd item : String) :
    exceptOk (validateAccess p fs cwd item) = specTossAllowed p fs cwd item := by
  unfold validateAccess specTossAllowed specObjectWritable
  by_cases h0 : p.uid == 0
  · simp [h0, exceptOk]
  · simp only [h0]
    cases h1 : fsLookup fs (absPath cwd item) with
    | none => simp [h1, exceptOk]
    | some st =>
      simp only [h1]
      have hpar := validateParentDirAccess_ok_eq p fs cwd item
      cases hp : fsLookup fs (absPath cwd (filepathDir item)) with
      | none =>
        rw [hp] at hpar
        split_ifs <;> simp_all [exceptOk]
      | some pst =>
        rw [hp] at hpar
        split_ifs <;> simp_all [exceptOk]

/-! ## Claim theorems -/

/-- C10: every Journal operation other than Load and Close, invoked while
no backing database has been opened, returns the
journal-database-is-not-initialized error, performs no state change (the
handle comes back unchanged) and does not panic (each operation is a total
function of the model). -/
theorem journal_uninitialized_all_ops_error
    (path item container cwd file : String) (m : MetaData) (fs : FS)
    (now w : Int) :
    Journal.register ⟨path, none⟩ m
        = (.error "journal database is not initialized", ⟨path, none⟩)
    ∧ Journal.Add ⟨path, none⟩ fs cwd now item file w
        = (.error "journal database is not initialized", ⟨path, none⟩)
    ∧ Journal.Get ⟨path, none⟩ item
        = .error "journal database is not initialized"
    ∧ Journal.ListRecords ⟨path, none⟩
        = .error "journal database is not initialized"
    ∧ Journal.GetAllItems ⟨path, none⟩
        = .error "journal database is not initialized"
    ∧ Journal.Delete ⟨path, none⟩ item
        = (.error "journal database is not initialized", ⟨path, none⟩)
    ∧ Journal.Clear ⟨path, none⟩
        = (.error "journal database is not initialized", ⟨path, none⟩)
    ∧ Journal.Count ⟨path, none⟩
        = .error "journal database is not initialized"
    ∧ Journal.GetSize ⟨path, none⟩
        = .error "journal database is not initialized"
    ∧ Journal.GetContainerItems ⟨path, none⟩ container
        = .error "journal database is not initialized" :=
  ⟨rfl, rfl, rfl, rfl, rfl, rfl, rfl, rfl, rfl, rfl⟩

/-- C4: IsWipeable holds exactly when the floor of the elapsed whole days
since TossedTime reaches WipeoutTime; with WipeoutTime 30, a record tossed
exactly 30.0 days (2592000 s) ago is wipeable, one tossed 29.9 days
(2583360 s) ago is not. -/
theorem isWipeable_iff_floor_days :
    (∀ (nowSec : Int) (m : MetaData),
       IsWipeable (nowSec * 1000000000) m = true
         ↔ m.WipeoutTime ≤ ⌊((nowSec - m.TossedTime : ℤ) : ℚ) / 86400⌋)
    ∧ IsWipeable (2592000 * 1000000000) ⟨"n", "/h/n", 1, 30, 0⟩ = true
    ∧ IsWipeable (2583360 * 1000000000) ⟨"n", "/h/n", 1, 30, 0⟩ = false := by
  refine ⟨fun nowSec m => ?_,
    by norm_num [IsWipeable, durationHours, TossElapsedNs],
    by norm_num [IsWipeable, durationHours, TossElapsedNs]⟩
  rw [IsWipeable, decide_eq_true_eq, Int.le_floor]
  have h : durationHours (TossElapsedNs (nowSec * 1000000000) m) / 24
      = ((nowSec - m.TossedTime : ℤ) : ℚ) / 86400 := by
    unfold durationHours TossElapsedNs
    push_cast
    field_simp
    ring
  rw [h]

/-- C1: when the rename into the container fails, Toss deletes the
just-written journal record, so no record for the attempted destination
key survives the call, and the call returns an error wrapping the
underlying rename cause. -/
theorem toss_rename_failure_compensates (item suffix cwd cause : String)
    (cfg : Config) (fs : FS) (now : Int) (j : Journal) (d : DB)
    (hdb : j.db = some d) :
    journalLookup (Toss item cfg suffix fs cwd now (some cause) j).2.1
        (filepathBase (pathJoin cfg.ContainerPath
          (filepathBase (item ++ "_" ++ suffix)))) = none
    ∧ (Toss item cfg suffix fs cwd now (some cause) j).1
        = .error ("error moving item to rubbish bin: " ++ cause) := by
  obtain ⟨jp, jdb⟩ := j
  change jdb = some d at hdb
  subst hdb
  exact ⟨by simp [Toss, Journal.AddFileByName, Journal.Add, Journal.register,
      Journal.Delete, journalLookup, dbLookup_erase_self],
    by simp [Toss, Journal.AddFileByName, Journal.Add, Journal.register,
      Journal.Delete]⟩

/-- Witness for C1 at a concrete state: a rename failure with cause
"permission denied" on an initialized empty journal leaves no record for
the destination key and surfaces the wrapped error. -/
theorem toss_rename_failure_compensates_witness :
    journalLookup (Toss "f" ⟨"/c", "/w", 30, 30⟩ "AB12CD" [] "/w" 100
        (some "permission denied") ⟨"/c/.journal", some []⟩).2.1
      (filepathBase (pathJoin "/c" (filepathBase ("f" ++ "_" ++ "AB12CD"))))
        = none
    ∧ (Toss "f" ⟨"/c", "/w", 30, 30⟩ "AB12CD" [] "/w" 100
        (some "permission denied") ⟨"/c/.journal", some []⟩).1
      = .error ("error moving item to rubbish bin: " ++ "permission denied") :=
  toss_rename_failure_compensates "f" "AB12CD" "/w" "permission denied"
    ⟨"/c", "/w", 30, 30⟩ [] 100 ⟨"/c/.journal", some []⟩ [] rfl

/-- C2: the access check of the gated Toss succeeds exactly when the spec
allows it (root always passes; otherwise the owner needs the owner-write
bit, else group membership the group-write bit, else the other-write bit,
and the parent directory must also be writable), and when it fails the
call returns that permission error with the journal and the filesystem
completely unchanged: the check runs and fully passes before any journal
write or rename is attempted. -/
theorem toss_permission_gate :
    (∀ (p : Principal) (fs : FS) (cwd item : String),
       exceptOk (validateAccess p fs cwd item)
         = specTossAllowed p fs cwd item)
    ∧ (∀ (p : Principal) (fs : FS) (cwd item suffix : String)
         (cfg : Config) (now : Int) (renameErr : Option String)
         (j : Journal) (e : String),
       validateAccess p fs cwd item = .error e →
       TossValidated item cfg suffix fs cwd p now renameErr j
         = (.error e, j, fs)) := by
  refine ⟨validateAccess_ok_eq, ?_⟩
  intro p fs cwd item suffix cfg now renameErr j e h
  simp [TossValidated, h]

/-- Witness for C2: a non-root principal without the owner-write bit on
/w/f is rejected and the gated Toss changes neither journal nor
filesystem. -/
theorem toss_permission_gate_witness :
    TossValidated "f" ⟨"/c", "/w", 30, 30⟩ "S"
        [("/w", ⟨1000, 1000, 0o755, true, false⟩),
         ("/w/f", ⟨1000, 1000, 0o444, false, false⟩)]
        "/w" ⟨1000, 1000, []⟩ 100 none ⟨"/c/.journal", some []⟩
      = (.error "no write permission for item f", ⟨"/c/.journal", some []⟩,
         [("/w", ⟨1000, 1000, 0o755, true, false⟩),
          ("/w/f", ⟨1000, 1000, 0o444, false, false⟩)]) :=
  toss_permission_gate.2 ⟨1000, 1000, []⟩
    [("/w", ⟨1000, 1000, 0o755, true, false⟩),
     ("/w/f", ⟨1000, 1000, 0o444, false, false⟩)]
    "/w" "f" "S" ⟨"/c", "/w", 30, 30⟩ 100 none ⟨"/c/.journal", some []⟩
    "no write permission for item f" rfl

/-- C3: evaluation of TossFile at the failing input: the journal write is
spawned in a goroutine and not awaited, so the call returns with the
rename already performed (notes.txt moved to /c/notes.txt), the journal
still without any record, and the write merely pending — the rename is not
ordered after the completion of the journal write.  By contrast, Toss
(tosser.go:439) only reaches the rename after AddFileByName has
returned. -/
theorem tossFile_rename_before_write_completes :
    (TossFile "notes.txt" ⟨"/c", "/h", 30, 30⟩
        [("/h/notes.txt", ⟨1000, 1000, 0o644, false, false⟩)]
        "/h" "20240101000000" none ⟨"/c/.journal", some []⟩).res = .ok ()
    ∧ (TossFile "notes.txt" ⟨"/c", "/h", 30, 30⟩
        [("/h/notes.txt", ⟨1000, 1000, 0o644, false, false⟩)]
        "/h" "20240101000000" none ⟨"/c/.journal", some []⟩).j
      = ⟨"/c/.journal", some []⟩
    ∧ fsLookup (TossFile "notes.txt" ⟨"/c", "/h", 30, 30⟩
        [("/h/notes.txt", ⟨1000, 1000, 0o644, false, false⟩)]
        "/h" "20240101000000" none ⟨"/c/.journal", some []⟩).fs "/c/notes.txt"
      = some ⟨1000, 1000, 0o644, false, false⟩
    ∧ (TossFile "notes.txt" ⟨"/c", "/h", 30, 30⟩
        [("/h/notes.txt", ⟨1000, 1000, 0o644, false, false⟩)]
        "/h" "20240101000000" none ⟨"/c/.journal", some []⟩).pending
      = [⟨"notes.txt", "notes.txt", 30⟩] :=
  ⟨rfl, rfl, rfl, rfl⟩

/-- C5 counterexample: a journal holding one record with Origin /home/abc,
queried with the directory prefix /home/a, returns that record even though
/home/abc lies outside the subtree of /home/a (its parent directory is
/home): the string-prefix filter of GetContainerItems is not subtree
containment, refuting the claimed scope containment at this input. -/
theorem getContainerItems_not_subtree :
    Journal.GetContainerItems
        ⟨"/c/.journal", some [("abc", ⟨"abc", "/home/abc", 1, 30, 0⟩)]⟩
        "/home/a"
      = .ok [⟨"abc", "/home/abc", 1, 30, 0⟩]
    ∧ specLocalScope "/home/a" ⟨"abc", "/home/abc", 1, 30, 0⟩ = false
    ∧ inSubtree "/home/a" "/home/abc" = false :=
  ⟨rfl, by decide, by decide⟩

/-- C5 amended: GetContainerItems with prefix dir returns exactly the
records whose Origin has dir as a string prefix — a record is in the
result precisely when it is stored and its Origin extends dir
byte-wise, which admits records outside the subtree of dir. -/
theorem getContainerItems_prefix_exact (j : Journal) (d : DB) (dir : String)
    (hdb : j.db = some d) :
    Journal.GetContainerItems j dir
      = .ok ((dbValues d).filter (fun m => hasPrefixStr m.Origin dir))
    ∧ ∀ m : MetaData,
        m ∈ (dbValues d).filter (fun m => hasPrefixStr m.Origin dir)
          ↔ m ∈ dbValues d ∧ hasPrefixStr m.Origin dir = true := by
  obtain ⟨jp, jdb⟩ := j
  change jdb = some d at hdb
  subst hdb
  constructor
  · simp only [Journal.GetContainerItems, Journal.GetAllItems]
    by_cases h : ((dbValues d).filter (fun m => hasPrefixStr m.Origin dir)).isEmpty
    · simp only [h, if_true]
      rw [List.isEmpty_iff] at h
      rw [h]
    · simp only [Bool.not_eq_true] at h
      simp [h]
  · intro m
    exact List.mem_filter

/-- Witness for C5 amended: on a two-record journal the query keeps the
record under /w and drops the one under /other. -/
theorem getContainerItems_prefix_exact_witness :
    Journal.GetContainerItems
        ⟨"/c/.journal", some [("a", ⟨"a", "/w/a", 1, 30, 0⟩),
                              ("b", ⟨"b", "/other/b", 1, 30, 0⟩)]⟩ "/w"
      = .ok ((dbValues [("a", ⟨"a", "/w/a", 1, 30, 0⟩),
                        ("b", ⟨"b", "/other/b", 1, 30, 0⟩)]).filter
          (fun m => hasPrefixStr m.Origin "/w"))
    ∧ ∀ m : MetaData,
        m ∈ (dbValues [("a", ⟨"a", "/w/a", 1, 30, 0⟩),
                       ("b", ⟨"b", "/other/b", 1, 30, 0⟩)]).filter
            (fun m => hasPrefixStr m.Origin "/w")
          ↔ m ∈ dbValues [("a", ⟨"a", "/w/a", 1, 30, 0⟩),
                          ("b", ⟨"b", "/other/b", 1, 30, 0⟩)]
            ∧ hasPrefixStr m.Origin "/w" = true :=
  getContainerItems_prefix_exact
    ⟨"/c/.journal", some [("a", ⟨"a", "/w/a", 1, 30, 0⟩),
                          ("b", ⟨"b", "/other/b", 1, 30, 0⟩)]⟩
    [("a", ⟨"a", "/w/a", 1, 30, 0⟩), ("b", ⟨"b", "/other/b", 1, 30, 0⟩)]
    "/w" rfl

/-- C6: when the restoration target (the original basename in the working
directory) already exists and override is unset, the restore loop reports
a conflict and performs no mutation: the journal and the filesystem come
back unchanged, so the journal record and the container file both
remain. -/
theorem restore_conflict_no_mutation (cfg : Config) (fs : FS)
    (cwd file : String) (renameErr : Option String)
    (localRubbish : List MetaData) (j : Journal) (record : MetaData)
    (st : FileStat)
    (hfind : localRubbish.find? (fun r => r.Item == file) = some record)
    (hexists : fsLookup fs (absPath cwd (filepathBase record.Origin))
      = some st) :
    restoreOne false cfg fs cwd renameErr localRubbish file j
      = (.conflict, j, fs) := by
  simp [restoreOne, hfind, hexists]

/-- Witness for C6: restoring a.txt while /w/a.txt exists and override is
unset reports the conflict and leaves the state untouched. -/
theorem restore_conflict_no_mutation_witness :
    restoreOne false ⟨"/c", "/w", 30, 30⟩
        [("/w/a.txt", ⟨1000, 1000, 0o644, false, false⟩),
         ("/c/a.txt", ⟨1000, 1000, 0o644, false, false⟩)]
        "/w" none [⟨"a.txt", "/w/a.txt", 1, 30, 0⟩] "a.txt"
        ⟨"/c/.journal", some [("a.txt", ⟨"a.txt", "/w/a.txt", 1, 30, 0⟩)]⟩
      = (.conflict,
         ⟨"/c/.journal", some [("a.txt", ⟨"a.txt", "/w/a.txt", 1, 30, 0⟩)]⟩,
         [("/w/a.txt", ⟨1000, 1000, 0o644, false, false⟩),
          ("/c/a.txt", ⟨1000, 1000, 0o644, false, false⟩)]) :=
  restore_conflict_no_mutation ⟨"/c", "/w", 30, 30⟩
    [("/w/a.txt", ⟨1000, 1000, 0o644, false, false⟩),
     ("/c/a.txt", ⟨1000, 1000, 0o644, false, false⟩)]
    "/w" "a.txt" none [⟨"a.txt", "/w/a.txt", 1, 30, 0⟩]
    ⟨"/c/.journal", some [("a.txt", ⟨"a.txt", "/w/a.txt", 1, 30, 0⟩)]⟩
    ⟨"a.txt", "/w/a.txt", 1, 30, 0⟩ ⟨1000, 1000, 0o644, false, false⟩
    rfl rfl

/-- C7 counterexample: candidates hold only a.txt; selecting ghost.txt
followed by a.txt makes wipeSelectedFiles return the not-found error at
once with the state untouched — the remaining key a.txt is never
processed and its record survives — so a missing key is fatal to the
batch, refuting the claimed per-item isolation at this input. -/
theorem wipeSelected_missing_key_fatal :
    wipeSelectedFiles ⟨"/c", "/w", 30, 30⟩
        ⟨true, fun _ => .ok "y", fun _ => none⟩
        [⟨"a.txt", "/w/a.txt", 1, 30, 0⟩] ["ghost.txt", "a.txt"]
        ⟨[("/c/a.txt", ⟨1000, 1000, 0o644, false, false⟩)],
         ⟨"/c/.journal", some [("a.txt", ⟨"a.txt", "/w/a.txt", 1, 30, 0⟩)]⟩⟩
      = (.error ("file " ++ "ghost.txt" ++ " not found in the rubbish"),
         ⟨[("/c/a.txt", ⟨1000, 1000, 0o644, false, false⟩)],
          ⟨"/c/.journal", some [("a.txt", ⟨"a.txt", "/w/a.txt", 1, 30, 0⟩)]⟩⟩)
    ∧ journalLookup
        ⟨"/c/.journal", some [("a.txt", ⟨"a.txt", "/w/a.txt", 1, 30, 0⟩)]⟩
        "a.txt" = some ⟨"a.txt", "/w/a.txt", 1, 30, 0⟩ :=
  ⟨rfl, rfl⟩

/-- C7 amended: a selected key with no matching candidate record makes
wipeSelectedFiles return the not-found error immediately, leaving the
state untouched and not processing the remaining keys; per-item isolation
holds only for executeWipe failures, after which processing continues with
the next key. -/
theorem wipeSelected_missing_key_aborts :
    (∀ (cfg : Config) (o : WipeOracles) (records : List MetaData)
       (file : String) (rest : List String) (st : WState),
       records.find? (fun r => r.Item == file) = none →
       wipeSelectedFiles cfg o records (file :: rest) st
         = (.error ("file " ++ file ++ " not found in the rubbish"), st))
    ∧ (∀ (cfg : Config) (o : WipeOracles) (records : List MetaData)
         (file : String) (rest : List String) (st : WState)
         (record : MetaData),
       records.find? (fun r => r.Item == file) = some record →
       confirmWipe o record.Item = .ok true →
       wipeSelectedFiles cfg o records (file :: rest) st
         = wipeSelectedFiles cfg o records rest
             (executeWipe cfg o.removeErr st record).2) := by
  constructor
  · intro cfg o records file rest st hmiss
    simp [wipeSelectedFiles, hmiss]
  · intro cfg o records file rest st record hfind hconf
    rcases hw : executeWipe cfg o.removeErr st record with ⟨res, st2⟩
    cases res <;> simp [wipeSelectedFiles, hfind, hconf, hw]

/-- Witness for C7 amended: the not-found abort at the concrete input of
the counterexample state, via the first conjunct. -/
theorem wipeSelected_missing_key_aborts_witness :
    wipeSelectedFiles ⟨"/c", "/w", 30, 30⟩
        ⟨true, fun _ => .ok "y", fun _ => none⟩
        [⟨"a.txt", "/w/a.txt", 1, 30, 0⟩] ["ghost2.txt"]
        ⟨[], ⟨"/c/.journal", some []⟩⟩
      = (.error ("file " ++ "ghost2.txt" ++ " not found in the rubbish"),
         ⟨[], ⟨"/c/.journal", some []⟩⟩) :=
  wipeSelected_missing_key_aborts.1 ⟨"/c", "/w", 30, 30⟩
    ⟨true, fun _ => .ok "y", fun _ => none⟩
    [⟨"a.txt", "/w/a.txt", 1, 30, 0⟩] "ghost2.txt" []
    ⟨[], ⟨"/c/.journal", some []⟩⟩ rfl

/-- C8: executeWipe first deletes the journal record and then removes the
container object; when the removal fails after the deletion, the exact
original record (all fields unchanged) is re-inserted as compensation, the
filesystem is untouched, every other key is unaffected, and the removal
error is reported. -/
theorem executeWipe_compensates (cfg : Config)
    (removeErr : String → Option String) (st : WState) (record : MetaData)
    (d : DB) (cause : String) (hdb : st.j.db = some d)
    (hrm : removeErr (pathJoin cfg.ContainerPath record.Item) = some cause) :
    journalLookup (executeWipe cfg removeErr st record).2.j record.Item
      = some record
    ∧ (executeWipe cfg removeErr st record).2.fs = st.fs
    ∧ (executeWipe cfg removeErr st record).1
      = .error ("error removing rubbish file "
          ++ pathJoin cfg.ContainerPath record.Item ++ ": " ++ cause)
    ∧ ∀ k, k ≠ record.Item →
        journalLookup (executeWipe cfg removeErr st record).2.j k
          = journalLookup st.j k := by
  obtain ⟨fs, j⟩ := st
  obtain ⟨jp, jdb⟩ := j
  change jdb = some d at hdb
  subst hdb
  refine ⟨?_, ?_, ?_, ?_⟩
  · simp [executeWipe, Journal.Delete, Journal.AddRecord, Journal.register,
      journalLookup, hrm, dbLookup_set_self]
  · simp [executeWipe, Journal.Delete, Journal.AddRecord, Journal.register,
      hrm]
  · simp [executeWipe, Journal.Delete, Journal.AddRecord, Journal.register,
      hrm]
  · intro k hk
    simp [executeWipe, Journal.Delete, Journal.AddRecord, Journal.register,
      journalLookup, hrm, dbLookup_set_ne _ _ _ _ hk,
      dbLookup_erase_ne _ _ _ hk]

/-- Witness for C8: a removal failure with cause busy at the concrete
state re-inserts the exact record and reports the error. -/
theorem executeWipe_compensates_witness :
    journalLookup (executeWipe ⟨"/c", "/w", 30, 30⟩ (fun _ => some "busy")
        ⟨[("/c/a.txt", ⟨1000, 1000, 0o644, false, false⟩)],
         ⟨"/c/.journal", some [("a.txt", ⟨"a.txt", "/w/a.txt", 1, 30, 0⟩)]⟩⟩
        ⟨"a.txt", "/w/a.txt", 1, 30, 0⟩).2.j "a.txt"
      = some ⟨"a.txt", "/w/a.txt", 1, 30, 0⟩
    ∧ (executeWipe ⟨"/c", "/w", 30, 30⟩ (fun _ => some "busy")
        ⟨[("/c/a.txt", ⟨1000, 1000, 0o644, false, false⟩)],
         ⟨"/c/.journal", some [("a.txt", ⟨"a.txt", "/w/a.txt", 1, 30, 0⟩)]⟩⟩
        ⟨"a.txt", "/w/a.txt", 1, 30, 0⟩).2.fs
      = [("/c/a.txt", ⟨1000, 1000, 0o644, false, false⟩)]
    ∧ (executeWipe ⟨"/c", "/w", 30, 30⟩ (fun _ => some "busy")
        ⟨[("/c/a.txt", ⟨1000, 1000, 0o644, false, false⟩)],
         ⟨"/c/.journal", some [("a.txt", ⟨"a.txt", "/w/a.txt", 1, 30, 0⟩)]⟩⟩
        ⟨"a.txt", "/w/a.txt", 1, 30, 0⟩).1
      = .error ("error removing rubbish file "
          ++ pathJoin "/c" "a.txt" ++ ": " ++ "busy")
    ∧ ∀ k, k ≠ "a.txt" →
        journalLookup (executeWipe ⟨"/c", "/w", 30, 30⟩ (fun _ => some "busy")
            ⟨[("/c/a.txt", ⟨1000, 1000, 0o644, false, false⟩)],
             ⟨"/c/.journal",
              some [("a.txt", ⟨"a.txt", "/w/a.txt", 1, 30, 0⟩)]⟩⟩
            ⟨"a.txt", "/w/a.txt", 1, 30, 0⟩).2.j k
          = journalLookup
              ⟨"/c/.journal", some [("a.txt", ⟨"a.txt", "/w/a.txt", 1, 30, 0⟩)]⟩
              k :=
  executeWipe_compensates ⟨"/c", "/w", 30, 30⟩ (fun _ => some "busy")
    ⟨[("/c/a.txt", ⟨1000, 1000, 0o644, false, false⟩)],
     ⟨"/c/.journal", some [("a.txt", ⟨"a.txt", "/w/a.txt", 1, 30, 0⟩)]⟩⟩
    ⟨"a.txt", "/w/a.txt", 1, 30, 0⟩
    [("a.txt", ⟨"a.txt", "/w/a.txt", 1, 30, 0⟩)] "busy" rfl rfl

/-- C9 counterexample: tossing the regular file notes.txt under the
destination key notes.txt_AB12CD stores Type = TypeOther, because Add
classifies the Item key (which names nothing in the working directory)
instead of the tossed object, whose no-follow classification is TypeFile —
refuting the claim that Type is derived by inspecting the tossed object. -/
theorem add_type_counterexample :
    journalLookup (Journal.Add ⟨"/c/.journal", some []⟩
        [("/h/notes.txt", ⟨1000, 1000, 0o644, false, false⟩)]
        "/h" 100 "notes.txt_AB12CD" "notes.txt" 30).2 "notes.txt_AB12CD"
      = some ⟨"notes.txt_AB12CD", "/h/notes.txt", TypeOther, 30, 100⟩
    ∧ getType [("/h/notes.txt", ⟨1000, 1000, 0o644, false, false⟩)] "/h"
        "notes.txt" = TypeFile
    ∧ TypeOther ≠ TypeFile :=
  ⟨rfl, rfl, by decide⟩

/-- C9 amended: the stored Type is the no-follow classification (symlink,
directory, regular file, otherwise Other, and Other when nothing can be
inspected) applied to the Item key resolved against the working directory,
not to the tossed object at Origin. -/
theorem add_type_from_item_key (j : Journal) (d : DB) (fs : FS)
    (cwd : String) (now : Int) (item file : String) (w : Int)
    (hdb : j.db = some d) :
    (Journal.Add j fs cwd now item file w).1 = .ok ()
    ∧ journalLookup (Journal.Add j fs cwd now item file w).2 item
      = some { Item := item, Origin := absPath cwd file,
               «Type» := getType fs cwd item, WipeoutTime := w,
               TossedTime := now }
    ∧ (fsLookup fs (absPath cwd item) = none → getType fs cwd item = TypeOther)
    ∧ ∀ stat, fsLookup fs (absPath cwd item) = some stat →
        getType fs cwd item
          = (if stat.isSymlink then TypeSymlink
             else if stat.isDir then TypeDirectory else TypeFile) := by
  obtain ⟨jp, jdb⟩ := j
  change jdb = some d at hdb
  subst hdb
  refine ⟨?_, ?_, ?_, ?_⟩
  · simp [Journal.Add, Journal.register]
  · simp [Journal.Add, Journal.register, GenerateMetadata, journalLookup,
      dbLookup_set_self]
  · intro h
    simp [getType, h]
  · intro stat h
    simp [getType, h]

/-- Witness for C9 amended: at the counterexample state the stored record
carries Type = getType of the key, which is TypeOther there. -/
theorem add_type_from_item_key_witness :
    (Journal.Add ⟨"/c/.journal", some []⟩
        [("/h/notes.txt", ⟨1000, 1000, 0o644, false, false⟩)]
        "/h" 100 "notes.txt_AB12CD" "notes.txt" 30).1 = .ok ()
    ∧ journalLookup (Journal.Add ⟨"/c/.journal", some []⟩
        [("/h/notes.txt", ⟨1000, 1000, 0o644, false, false⟩)]
        "/h" 100 "notes.txt_AB12CD" "notes.txt" 30).2 "notes.txt_AB12CD"
      = some { Item := "notes.txt_AB12CD",
               Origin := absPath "/h" "notes.txt",
               «Type» := getType
                 [("/h/notes.txt", ⟨1000, 1000, 0o644, false, false⟩)]
                 "/h" "notes.txt_AB12CD",
               WipeoutTime := 30, TossedTime := 100 }
    ∧ (fsLookup [("/h/notes.txt", ⟨1000, 1000, 0o644, false, false⟩)]
        (absPath "/h" "notes.txt_AB12CD") = none →
       getType [("/h/notes.txt", ⟨1000, 1000, 0o644, false, false⟩)]
         "/h" "notes.txt_AB12CD" = TypeOther)
    ∧ ∀ stat, fsLookup [("/h/notes.txt", ⟨1000, 1000, 0o644, false, false⟩)]
        (absPath "/h" "notes.txt_AB12CD") = some stat →
        getType [("/h/notes.txt", ⟨1000, 1000, 0o644, false, false⟩)]
          "/h" "notes.txt_AB12CD"
          = (if stat.isSymlink then TypeSymlink
             else if stat.isDir then TypeDirectory else TypeFile) :=
  add_type_from_item_key ⟨"/c/.journal", some []⟩ []
    [("/h/notes.txt", ⟨1000, 1000, 0o644, false, false⟩)]
    "/h" 100 "notes.txt_AB12CD" "notes.txt" 30 rfl
